import Mathlib

/-!
Verification of the spotify-artists data-refresh pipeline
(`scripts/fetch_artists.py`): a shallow embedding of the binary varint
codec, the canvas batch-response decoder, the per-entity state store
(`ArtistDataStore.update_state` and the derived metrics), the geo store
(`GeoStore.ensure_city`), the per-request retry loops, and the
world-rank normalization in `parse_artist_payload`, together with
theorems settling the spec's testable properties.

Python `bytes` values are embedded as `List Nat` (each element < 256 in
practice; the functions are defined for all naturals exactly as the
Python operators `& | >> <<` are). Python `int` is `Int` (or `Nat` where
the source only ever holds non-negative values), `Optional[T]` is
`Option T`, raised exceptions are `Except.error`, and float arithmetic
on scores is real arithmetic over `ℝ`.
-/

-- ## Constants (fetch_artists.py lines 30-40)

def MAX_RETRIES : Nat := 5

def TOP_ARTIST_LIMIT : Int := 850

def ML_FLOOR : Nat := 5000

-- ## Binary varint codec (fetch_artists.py `_encode_varint` / `_decode_varint`)

/-- The byte list produced by `_encode_varint`'s do-while loop for a
non-negative value: low 7 bits first, high bit set on all but the last
byte. -/
def encodeVarintNat (value : Nat) : List Nat :=
  if value < 128 then [value]
  else (value % 128 + 128) :: encodeVarintNat (value / 128)

/-- `_encode_varint`: raises `ValueError` on negative input, otherwise
emits the base-128 little-endian byte list. -/
def encodeVarint (value : Int) : Except String (List Nat) :=
  if value < 0 then .error "Cannot encode negative integers as varint."
  else .ok (encodeVarintNat value.toNat)

/-- The loop body of `_decode_varint`, carrying the running `shift` and
`result`. Mirrors the source: or the low 7 bits of each byte into
`result` at `shift`, stop on a cleared high bit, raise on buffer
exhaustion or on a shift reaching 64 after a continuation byte. -/
def decodeVarintAux (buffer : List Nat) (index shift result : Nat) :
    Except String (Nat × Nat) :=
  if h : index < buffer.length then
    let byte := buffer[index]
    let result2 := result ||| ((byte &&& 0x7F) <<< shift)
    if byte &&& 0x80 = 0 then .ok (result2, index + 1)
    else if shift + 7 ≥ 64 then .error "Varint too long."
    else decodeVarintAux buffer (index + 1) (shift + 7) result2
  else .error "Unexpected end of buffer while decoding varint."
termination_by buffer.length - index

/-- `_decode_varint(buffer, index)`: returns `(value, next_index)` or
raises. -/
def decodeVarint (buffer : List Nat) (index : Nat) : Except String (Nat × Nat) :=
  decodeVarintAux buffer index 0 0

/-- The wire-type-0 loop of `_skip_field`: consume bytes until one has a
cleared high bit, raising on buffer exhaustion. -/
def skipVarint (buffer : List Nat) (index : Nat) : Except String Nat :=
  if h : index < buffer.length then
    let byte := buffer[index]
    if byte &&& 0x80 = 0 then .ok (index + 1)
    else skipVarint buffer (index + 1)
  else .error "Unexpected end of buffer while skipping varint."
termination_by buffer.length - index

/-- `_skip_field(buffer, index, wire_type)`: varint fields are consumed
to a cleared high bit, 64-bit fields skip 8 bytes, length-delimited
fields read a varint length then skip it, 32-bit fields skip 4 bytes;
any other wire type raises. -/
def skipField (buffer : List Nat) (index : Nat) (wireType : Nat) :
    Except String Nat :=
  if wireType = 0 then skipVarint buffer index
  else if wireType = 1 then .ok (index + 8)
  else if wireType = 2 then
    match decodeVarint buffer index with
    | .ok (length, index2) => .ok (index2 + length)
    | .error e => .error e
  else if wireType = 5 then .ok (index + 4)
  else .error "Unsupported wire type"

-- Basic facts about the codec loops, used both for termination of the
-- response parser and for the round-trip theorem.

theorem decodeVarintAux_ok_lt_fuel (buffer : List Nat) (fuel : Nat) :
    ∀ index shift result v j, buffer.length - index ≤ fuel →
      decodeVarintAux buffer index shift result = .ok (v, j) → index < j := by
  induction fuel with
  | zero =>
    intro index shift result v j hf h
    rw [decodeVarintAux] at h
    rw [dif_neg (by omega)] at h
    simp at h
  | succ n ih =>
    intro index shift result v j hf h
    rw [decodeVarintAux] at h
    by_cases hlt : index < buffer.length
    · rw [dif_pos hlt] at h
      simp only at h
      by_cases hbit : buffer[index] &&& 128 = 0
      · rw [if_pos hbit] at h
        simp only [Except.ok.injEq, Prod.mk.injEq] at h
        omega
      · rw [if_neg hbit] at h
        by_cases hs : shift + 7 ≥ 64
        · rw [if_pos hs] at h
          simp at h
        · rw [if_neg hs] at h
          have := ih (index + 1) (shift + 7) _ v j (by omega) h
          omega
    · rw [dif_neg hlt] at h
      simp at h

theorem decodeVarint_ok_lt (buffer : List Nat) (index v j : Nat)
    (h : decodeVarint buffer index = .ok (v, j)) : index < j :=
  decodeVarintAux_ok_lt_fuel buffer (buffer.length - index) index 0 0 v j le_rfl h

theorem skipVarint_ok_lt_fuel (buffer : List Nat) (fuel : Nat) :
    ∀ index j, buffer.length - index ≤ fuel →
      skipVarint buffer index = .ok j → index < j := by
  induction fuel with
  | zero =>
    intro index j hf h
    rw [skipVarint] at h
    rw [dif_neg (by omega)] at h
    simp at h
  | succ n ih =>
    intro index j hf h
    rw [skipVarint] at h
    by_cases hlt : index < buffer.length
    · rw [dif_pos hlt] at h
      simp only at h
      by_cases hbit : buffer[index] &&& 128 = 0
      · rw [if_pos hbit] at h
        simp only [Except.ok.injEq] at h
        omega
      · rw [if_neg hbit] at h
        have := ih (index + 1) j (by omega) h
        omega
    · rw [dif_neg hlt] at h
      simp at h

theorem skipVarint_ok_lt (buffer : List Nat) (index j : Nat)
    (h : skipVarint buffer index = .ok j) : index < j :=
  skipVarint_ok_lt_fuel buffer (buffer.length - index) index j le_rfl h

theorem skipField_ok_le (buffer : List Nat) (index wireType j : Nat)
    (h : skipField buffer index wireType = .ok j) : index ≤ j := by
  unfold skipField at h
  split at h
  · exact le_of_lt (skipVarint_ok_lt buffer index j h)
  split at h
  · cases h; omega
  split at h
  · split at h
    · rename_i v i2 heq
      cases h
      have := decodeVarint_ok_lt buffer index v i2 heq
      omega
    · exact absurd h (by simp)
  split at h
  · cases h; omega
  · exact absurd h (by simp)

-- ## Varint round-trip (spec §8: decode(encode(n)) == n for n < 2^63)

theorem and_127_eq_mod (m : Nat) : m &&& 127 = m % 128 := by
  have := Nat.and_pow_two_sub_one_eq_mod m 7
  norm_num at this
  exact this

theorem and_128_eq_zero {n : Nat} (h : n < 128) : n &&& 128 = 0 := by
  have hb : n.testBit 7 = false := by
    rw [Nat.testBit_to_div_mod]
    norm_num
    omega
  have h2 := Nat.and_two_pow n 7
  norm_num at h2
  rw [h2, hb]
  norm_num

theorem and_128_ne_zero {b : Nat} (h1 : 128 ≤ b) (h2 : b < 256) : ¬ b &&& 128 = 0 := by
  have hb : b.testBit 7 = true := by
    rw [Nat.testBit_to_div_mod]
    simp only [Nat.pow_succ]
    norm_num
    omega
  have h3 := Nat.and_two_pow b 7
  norm_num at h3
  rw [h3, hb]
  norm_num

theorem encodeVarintNat_length_pos (n : Nat) : 1 ≤ (encodeVarintNat n).length := by
  rw [encodeVarintNat]
  split <;> simp

theorem encodeVarintNat_length_le (k : Nat) :
    ∀ n, n < 128 ^ (k + 1) → (encodeVarintNat n).length ≤ k + 1 := by
  induction k with
  | zero =>
    intro n h
    rw [encodeVarintNat, if_pos (by simpa using h)]
    simp
  | succ k ih =>
    intro n h
    by_cases h128 : n < 128
    · rw [encodeVarintNat, if_pos h128]
      simp
    · rw [encodeVarintNat, if_neg h128]
      simp only [List.length_cons]
      have hdiv : n / 128 < 128 ^ (k + 1) := by
        rw [Nat.div_lt_iff_lt_mul (by norm_num)]
        calc n < 128 ^ (k + 2) := h
        _ = 128 ^ (k + 1) * 128 := by ring
      have := ih (n / 128) hdiv
      omega

/-- Walking the decoder one position into a cons cell is the same as
decoding the tail, with the returned index shifted by one. -/
theorem decodeVarintAux_cons (b : Nat) (rest : List Nat) (fuel : Nat) :
    ∀ index shift result, rest.length - index ≤ fuel →
      decodeVarintAux (b :: rest) (index + 1) shift result =
        (decodeVarintAux rest index shift result).map (fun p => (p.1, p.2 + 1)) := by
  induction fuel with
  | zero =>
    intro index shift result hf
    rw [decodeVarintAux, decodeVarintAux]
    rw [dif_neg (by simp; omega), dif_neg (by omega)]
    rfl
  | succ n ih =>
    intro index shift result hf
    rw [decodeVarintAux, decodeVarintAux]
    by_cases hlt : index < rest.length
    · rw [dif_pos (by simp; omega), dif_pos hlt]
      simp only [List.getElem_cons_succ]
      by_cases hbit : rest[index] &&& 128 = 0
      · rw [if_pos hbit, if_pos hbit]
        rfl
      · rw [if_neg hbit, if_neg hbit]
        by_cases hs : shift + 7 ≥ 64
        · rw [if_pos hs, if_pos hs]
          rfl
        · rw [if_neg hs, if_neg hs]
          exact ih (index + 1) (shift + 7) _ (by omega)
    · rw [dif_neg (by simp; omega), dif_neg hlt]
      rfl

/-- Decoding the encoder's output starting at any shift ors the value in
at that shift and consumes the whole encoding. -/
theorem decodeVarintAux_encode (n : Nat) :
    ∀ shift result, shift + 7 * ((encodeVarintNat n).length - 1) ≤ 63 →
      decodeVarintAux (encodeVarintNat n) 0 shift result =
        .ok (result ||| (n <<< shift), (encodeVarintNat n).length) := by
  induction n using Nat.strong_induction_on with
  | _ n ih =>
    intro shift result hs
    by_cases h128 : n < 128
    · rw [encodeVarintNat, if_pos h128]
      rw [decodeVarintAux]
      rw [dif_pos (by simp)]
      simp only [List.getElem_cons_zero]
      rw [if_pos (and_128_eq_zero h128)]
      rw [and_127_eq_mod, Nat.mod_eq_of_lt h128]
      simp
    · rw [encodeVarintNat, if_neg h128]
      have hmod : n % 128 < 128 := Nat.mod_lt _ (by norm_num)
      have hpos := encodeVarintNat_length_pos (n / 128)
      rw [decodeVarintAux]
      rw [dif_pos (by simp)]
      simp only [List.getElem_cons_zero]
      rw [if_neg (and_128_ne_zero (by omega) (by omega))]
      rw [if_neg (by
        rw [encodeVarintNat, if_neg h128] at hs
        simp only [List.length_cons] at hs
        omega)]
      rw [show (0 : Nat) + 1 = 0 + 1 from rfl]
      rw [decodeVarintAux_cons _ _ (encodeVarintNat (n / 128)).length 0 _ _ (by omega)]
      have hdivlt : n / 128 < n := Nat.div_lt_self (by omega) (by norm_num)
      rw [ih (n / 128) hdivlt (shift + 7) _ (by
        rw [encodeVarintNat, if_neg h128] at hs
        simp only [List.length_cons] at hs
        omega)]
      simp only [Except.map, List.length_cons]
      congr 2
      rw [and_127_eq_mod]
      rw [Nat.add_mod_right]
      have hmm : n % 128 % 128 = n % 128 := by omega
      rw [hmm]
      rw [Nat.lor_assoc]
      congr 1
      rw [Nat.shiftLeft_eq, Nat.shiftLeft_eq, Nat.shiftLeft_eq]
      have hlt : (n % 128) * 2 ^ shift < 2 ^ (shift + 7) := by
        calc (n % 128) * 2 ^ shift < 128 * 2 ^ shift :=
          mul_lt_mul_of_pos_right hmod (by positivity)
        _ = 2 ^ (shift + 7) := by rw [pow_add]; ring
      have hor := Nat.mul_add_lt_is_or hlt (n / 128)
      rw [Nat.lor_comm]
      rw [mul_comm (n / 128) (2 ^ (shift + 7))]
      rw [← hor]
      have hdm : 128 * (n / 128) + n % 128 = n := Nat.div_add_mod n 128
      calc 2 ^ (shift + 7) * (n / 128) + n % 128 * 2 ^ shift
          = (128 * (n / 128) + n % 128) * 2 ^ shift := by rw [pow_add]; ring
        _ = n * 2 ^ shift := by rw [hdm]

/-- C4: for every non-negative integer n up to 2^63 − 1, decoding the
bytes produced by the varint encoder starting at index 0 returns exactly
n and consumes exactly the encoded bytes; the encoder rejects negative
input. -/
theorem varint_round_trip (n : Nat) (m : Int) (hn : n < 2 ^ 63) (hm : m < 0) :
    encodeVarint (n : Int) = .ok (encodeVarintNat n) ∧
    decodeVarint (encodeVarintNat n) 0 = .ok (n, (encodeVarintNat n).length) ∧
    encodeVarint m = .error "Cannot encode negative integers as varint." := by
  refine ⟨?_, ?_, ?_⟩
  · rw [encodeVarint, if_neg (by omega)]
    simp
  · have hlen : (encodeVarintNat n).length ≤ 9 := by
      apply encodeVarintNat_length_le 8
      calc n < 2 ^ 63 := hn
      _ = 128 ^ 9 := by norm_num
    rw [decodeVarint]
    rw [decodeVarintAux_encode n 0 0 (by omega)]
    simp
  · rw [encodeVarint, if_pos hm]

/-- Witness for C4 at n = 300 and m = −1. -/
theorem varint_round_trip_witness :
    encodeVarint ((300 : Nat) : Int) = .ok (encodeVarintNat 300) ∧
    decodeVarint (encodeVarintNat 300) 0 = .ok (300, (encodeVarintNat 300).length) ∧
    encodeVarint (-1) = .error "Cannot encode negative integers as varint." :=
  varint_round_trip 300 (-1) (by norm_num) (by norm_num)

-- ## Canvas batch-response decoder (fetch_artists.py
-- `_parse_canvas_message` / `parse_canvas_response`)

/-- RFC 3629 well-formedness of a byte sequence: models whether Python's
`bytes.decode("utf-8")` succeeds (raises `UnicodeDecodeError` otherwise).
Decoded strings are represented by their UTF-8 byte lists. -/
def validUtf8 (l : List Nat) : Bool :=
  match l with
  | [] => true
  | b :: rest =>
    if b < 0x80 then validUtf8 rest
    else if 0xC2 ≤ b && b ≤ 0xDF then
      match rest with
      | c1 :: rest1 => (0x80 ≤ c1 && c1 ≤ 0xBF) && validUtf8 rest1
      | _ => false
    else if b = 0xE0 then
      match rest with
      | c1 :: c2 :: rest2 =>
        (0xA0 ≤ c1 && c1 ≤ 0xBF) && (0x80 ≤ c2 && c2 ≤ 0xBF) && validUtf8 rest2
      | _ => false
    else if (0xE1 ≤ b && b ≤ 0xEC) || b = 0xEE || b = 0xEF then
      match rest with
      | c1 :: c2 :: rest2 =>
        (0x80 ≤ c1 && c1 ≤ 0xBF) && (0x80 ≤ c2 && c2 ≤ 0xBF) && validUtf8 rest2
      | _ => false
    else if b = 0xED then
      match rest with
      | c1 :: c2 :: rest2 =>
        (0x80 ≤ c1 && c1 ≤ 0x9F) && (0x80 ≤ c2 && c2 ≤ 0xBF) && validUtf8 rest2
      | _ => false
    else if b = 0xF0 then
      match rest with
      | c1 :: c2 :: c3 :: rest3 =>
        (0x90 ≤ c1 && c1 ≤ 0xBF) && (0x80 ≤ c2 && c2 ≤ 0xBF) &&
          (0x80 ≤ c3 && c3 ≤ 0xBF) && validUtf8 rest3
      | _ => false
    else if 0xF1 ≤ b && b ≤ 0xF3 then
      match rest with
      | c1 :: c2 :: c3 :: rest3 =>
        (0x80 ≤ c1 && c1 ≤ 0xBF) && (0x80 ≤ c2 && c2 ≤ 0xBF) &&
          (0x80 ≤ c3 && c3 ≤ 0xBF) && validUtf8 rest3
      | _ => false
    else if b = 0xF4 then
      match rest with
      | c1 :: c2 :: c3 :: rest3 =>
        (0x80 ≤ c1 && c1 ≤ 0x8F) && (0x80 ≤ c2 && c2 ≤ 0xBF) &&
          (0x80 ≤ c3 && c3 ≤ 0xBF) && validUtf8 rest3
      | _ => false
    else false
termination_by l.length
decreasing_by all_goals (simp_wf <;> omega)

/-- `bytes.decode("utf-8")` as an option: the byte list itself on
success, `none` on `UnicodeDecodeError`. -/
def utf8Decode (l : List Nat) : Option (List Nat) :=
  if validUtf8 l then some l else none

/-- `_track_id_from_uri`: `None` and the empty string give `None`; a URI
with no colon is returned whole; otherwise the part after the last
colon, or `None` when that part is empty (the colon is byte 58). -/
def trackIdFromUri (uri : Option (List Nat)) : Option (List Nat) :=
  match uri with
  | none => none
  | some u =>
    if u = [] then none
    else if ¬ u.contains 58 then some u
    else
      match (u.splitOn 58).getLast? with
      | none => none
      | some last => if last = [] then none else some last

/-- The field loop of `_parse_canvas_message`: length-delimited fields
numbered 2 and 5 capture the canvas URL and track URI (keeping the most
recent decodable value), all other fields are skipped per wire type; any
helper error breaks the loop, returning what was captured so far. -/
def parseCanvasMessageAux (buffer : List Nat) (index : Nat)
    (trackUri canvasUrl : Option (List Nat)) :
    Option (List Nat) × Option (List Nat) :=
  if h : index < buffer.length then
    let tag := buffer[index]
    let fieldNumber := tag >>> 3
    let wireType := tag &&& 0x07
    if wireType = 2 then
      match h2 : decodeVarint buffer (index + 1) with
      | .error _ => (trackUri, canvasUrl)
      | .ok (fieldLength, index2) =>
        let fieldData := (buffer.drop index2).take fieldLength
        if fieldNumber = 2 then
          parseCanvasMessageAux buffer (index2 + fieldLength) trackUri
            (match utf8Decode fieldData with
             | some s => some s
             | none => canvasUrl)
        else if fieldNumber = 5 then
          parseCanvasMessageAux buffer (index2 + fieldLength)
            (match utf8Decode fieldData with
             | some s => some s
             | none => trackUri) canvasUrl
        else parseCanvasMessageAux buffer (index2 + fieldLength) trackUri canvasUrl
    else
      match h2 : skipField buffer (index + 1) wireType with
      | .error _ => (trackUri, canvasUrl)
      | .ok index2 => parseCanvasMessageAux buffer index2 trackUri canvasUrl
  else (trackUri, canvasUrl)
termination_by buffer.length - index
decreasing_by
  all_goals
    first
    | (have hmono := decodeVarint_ok_lt buffer (index + 1) fieldLength index2 h2; omega)
    | (have hmono := skipField_ok_le buffer (index + 1) wireType index2 h2
       simp only [wireType] at hmono ⊢
       omega)

/-- `_parse_canvas_message(buffer)`: returns
`(_track_id_from_uri(track_uri), canvas_url)`. -/
def parseCanvasMessage (buffer : List Nat) :
    Option (List Nat) × Option (List Nat) :=
  let (trackUri, canvasUrl) := parseCanvasMessageAux buffer 0 none none
  (trackIdFromUri trackUri, canvasUrl)

/-- The outer loop of `parse_canvas_response`: submessages are field 1,
wire type 2; each is sliced and parsed, a non-empty track id / canvas
URL pair is recorded unless the id is already present; everything else
is skipped per wire type; helper errors break the loop. The dict is an
insertion-ordered association list. -/
def parseCanvasResponseAux (payload : List Nat) (index : Nat)
    (canvases : List (List Nat × List Nat)) :
    Except String (List (List Nat × List Nat)) :=
  if h : index < payload.length then
    let tag := payload[index]
    let fieldNumber := tag >>> 3
    let wireType := tag &&& 0x07
    if fieldNumber = 1 ∧ wireType = 2 then
      match h2 : decodeVarint payload (index + 1) with
      | .error _ => .ok canvases
      | .ok (messageLength, index2) =>
        let canvasBytes := (payload.drop index2).take messageLength
        let parsed := parseCanvasMessage canvasBytes
        let canvases2 :=
          match parsed.1, parsed.2 with
          | some tid, some url =>
            if tid ≠ [] ∧ url ≠ [] ∧ canvases.all (fun p => p.1 ≠ tid) then
              canvases ++ [(tid, url)]
            else canvases
          | _, _ => canvases
        parseCanvasResponseAux payload (index2 + messageLength) canvases2
    else
      match h2 : skipField payload (index + 1) wireType with
      | .error _ => .ok canvases
      | .ok index2 => parseCanvasResponseAux payload index2 canvases
  else .ok canvases
termination_by payload.length - index
decreasing_by
  all_goals
    first
    | (have hmono := decodeVarint_ok_lt payload (index + 1) messageLength index2 h2; omega)
    | (have hmono := skipField_ok_le payload (index + 1) wireType index2 h2
       simp only [wireType] at hmono ⊢
       omega)

/-- `parse_canvas_response(payload)`. -/
def parseCanvasResponse (payload : List Nat) :
    Except String (List (List Nat × List Nat)) :=
  parseCanvasResponseAux payload 0 []

theorem parseCanvasResponseAux_ok (payload : List Nat) (fuel : Nat) :
    ∀ index canvases, payload.length - index ≤ fuel →
      ∃ m, parseCanvasResponseAux payload index canvases = .ok m := by
  induction fuel with
  | zero =>
    intro index canvases hf
    rw [parseCanvasResponseAux]
    rw [dif_neg (by omega)]
    exact ⟨canvases, rfl⟩
  | succ n ih =>
    intro index canvases hf
    rw [parseCanvasResponseAux]
    by_cases hlt : index < payload.length
    · rw [dif_pos hlt]
      simp only
      split
      · split
        · exact ⟨canvases, rfl⟩
        · rename_i messageLength index2 h2
          apply ih
          have := decodeVarint_ok_lt payload (index + 1) messageLength index2 h2
          omega
      · split
        · exact ⟨canvases, rfl⟩
        · rename_i index2 h2
          apply ih
          have := skipField_ok_le payload (index + 1) _ index2 h2
          omega
    · rw [dif_neg hlt]
      exact ⟨canvases, rfl⟩

/-- C2: the batch-response decoder is total. Every raise-path of the
helpers (`_decode_varint`, `_skip_field`) is an `Except.error`, and
`parse_canvas_response` catches all of them: for every byte buffer,
including truncated or malformed input, it returns `.ok` with the
mappings accumulated before the first failure point. -/
theorem parse_canvas_response_total (payload : List Nat) :
    ∃ m, parseCanvasResponse payload = .ok m := by
  rw [parseCanvasResponse]
  exact parseCanvasResponseAux_ok payload payload.length 0 [] (by omega)

-- ## Artist state store (fetch_artists.py dataclasses and
-- `ArtistDataStore.update_state`)

/-- `ArtistHistoryEntry`: days are encoded as days-since-epoch naturals
(the source only compares them for equality and relative position). -/
structure ArtistHistoryEntry where
  day : Nat
  rank : Option Int
  monthly_listeners : Option Int
  followers : Option Int
deriving DecidableEq, Repr

/-- `ArtistState` (the `Deque` history is a chronological list). -/
structure ArtistState where
  history : List ArtistHistoryEntry
  first_seen : Nat
  first_top500 : Option Nat
  last_top500 : Option Nat
  times_entered_top500 : Int
  days_in_top500 : Int
  best_rank : Option Int
deriving DecidableEq, Repr

/-- The fields of `ArtistOverview` consumed by `update_state` and the
metric helpers. -/
structure ArtistOverview where
  artist_id : String
  name : String
  monthly_listeners : Option Int
  followers : Option Int
  world_rank : Option Int
deriving DecidableEq, Repr

/-- Python truthiness plus limit test, as in
`bool(rank and rank <= TOP_ARTIST_LIMIT)`: `None` and `0` are falsy. -/
def inTopList (rank : Option Int) : Bool :=
  match rank with
  | none => false
  | some r => if r = 0 then false else decide (r ≤ TOP_ARTIST_LIMIT)

/-- `history[-1] if history and history[-1].day == self.today else None`. -/
def todaysEntry (today : Nat) (history : List ArtistHistoryEntry) :
    Option ArtistHistoryEntry :=
  match history.getLast? with
  | some e => if e.day = today then some e else none
  | none => none

/-- `bool(existing_today and existing_today.rank is not None and
existing_today.rank <= TOP_ARTIST_LIMIT)`. -/
def recordedTodayBefore (existingToday : Option ArtistHistoryEntry) : Bool :=
  match existingToday with
  | some e =>
    match e.rank with
    | some r => decide (r ≤ TOP_ARTIST_LIMIT)
    | none => false
  | none => false

/-- The `best_rank` assignment in `update_state`: guarded by the
truthiness of `overview.world_rank`, replaced only by a strictly smaller
observed rank. -/
def bestRankUpdate (worldRank : Option Int) (bestRank : Option Int) : Option Int :=
  match worldRank with
  | some wr =>
    if wr = 0 then bestRank
    else
      match bestRank with
      | none => some wr
      | some b => if wr < b then some wr else some b
  | none => bestRank

/-- `ArtistDataStore.update_state` (fetch_artists.py lines 969-1011),
as a pure state transformer: pop a same-day last entry, append today's
fresh entry, and update the top-list bookkeeping. The returned metrics
are `computeMetrics` of the new history, kept separate because they do
not feed back into the state. -/
def updateState (today : Nat) (state : ArtistState) (ov : ArtistOverview) :
    ArtistState :=
  let existingToday := todaysEntry today state.history
  let history1 :=
    if existingToday.isSome then state.history.dropLast else state.history
  let previousRank : Option Int :=
    match history1.getLast? with
    | some e => e.rank
    | none => none
  let previousInTop500 := inTopList previousRank
  let history2 := history1 ++
    [{ day := today, rank := ov.world_rank,
       monthly_listeners := ov.monthly_listeners, followers := ov.followers }]
  let inTop500Today := inTopList ov.world_rank
  let recorded := recordedTodayBefore existingToday
  if inTop500Today then
    { history := history2
      first_seen := min state.first_seen today
      first_top500 := some (state.first_top500.getD today)
      last_top500 := some today
      times_entered_top500 :=
        if recorded then state.times_entered_top500
        else if previousInTop500 then state.times_entered_top500
        else state.times_entered_top500 + 1
      days_in_top500 :=
        if recorded then state.days_in_top500 else state.days_in_top500 + 1
      best_rank := bestRankUpdate ov.world_rank state.best_rank }
  else
    { history := history2
      first_seen := min state.first_seen today
      first_top500 := state.first_top500
      last_top500 := state.last_top500
      times_entered_top500 := state.times_entered_top500
      days_in_top500 := state.days_in_top500
      best_rank := state.best_rank }

-- ## Derived metrics (fetch_artists.py `_growth`, `_freshness_score`,
-- `_momentum_score`, `compute_streak`, `_compute_metrics`)

/-- `ArtistDataStore._growth(history, offset)`: monthly-listener delta
against the entry `offset` positions back, 0 when the history is too
short or either endpoint is missing. -/
def growth (history : List ArtistHistoryEntry) (offset : Nat) : Int :=
  if history.length ≤ offset then 0
  else
    match history[history.length - 1]?, history[history.length - 1 - offset]? with
    | some latest, some past =>
      match latest.monthly_listeners, past.monthly_listeners with
      | some l, some p => l - p
      | _, _ => 0
    | _, _ => 0

/-- `clamp(value, lower, upper) = max(lower, min(value, upper))`. -/
noncomputable def clamp (value lower upper : ℝ) : ℝ :=
  max lower (min value upper)

/-- `ArtistDataStore._freshness_score(history)`. The float arithmetic is
modelled over ℝ; `tanh_norm` is `math.tanh`. -/
noncomputable def freshnessScore (history : List ArtistHistoryEntry) : ℝ :=
  match history.getLast? with
  | none => 0
  | some latest =>
    let mlToday : Int := latest.monthly_listeners.getD 0
    let g7 : Int := growth history 7
    let mlRatio : ℝ :=
      if mlToday = 0 then 0 else (g7 : ℝ) / max (mlToday : ℝ) ((ML_FLOOR : ℕ) : ℝ)
    let rankToday : Int := latest.rank.getD (500 + 100)
    let rankWeek : Option Int :=
      if 7 < history.length then
        match history[history.length - 8]? with
        | some e => e.rank
        | none => none
      else none
    let rankDelta : ℝ :=
      match rankWeek with
      | some rw => ((rw - rankToday : Int) : ℝ) / 500
      | none => 0
    clamp (0.6 * Real.tanh mlRatio + 0.4 * Real.tanh rankDelta) 0 1

/-- `statistics.pvariance` over ℝ (only ever called on lists of length
at least 2). -/
noncomputable def pvariance (values : List Int) : ℝ :=
  let n : ℝ := values.length
  let mean : ℝ := (values.map (fun v => (v : ℝ))).sum / n
  ((values.map (fun v => ((v : ℝ) - mean) ^ 2)).sum) / n

/-- `ArtistDataStore._momentum_score(history)`. -/
noncomputable def momentumScore (history : List ArtistHistoryEntry) : ℝ :=
  match history.getLast? with
  | none => 0
  | some latest =>
    let mlToday : Int := latest.monthly_listeners.getD 0
    let g30 : Int := growth history 30
    let mlRatio : ℝ :=
      if mlToday = 0 then 0 else (g30 : ℝ) / max (mlToday : ℝ) ((ML_FLOOR : ℕ) : ℝ)
    let recent := history.drop (history.length - 30)
    if recent.length < 5 then clamp (Real.tanh mlRatio) 0 1
    else
      let ranks : List Int := recent.map (fun e => e.rank.getD (500 + 100))
      let k := min 7 ranks.length
      let firstAvg : ℝ := (((ranks.take k).map (fun v => (v : ℝ))).sum) / (k : ℝ)
      let lastAvg : ℝ :=
        (((ranks.drop (ranks.length - k)).map (fun v => (v : ℝ))).sum) / (k : ℝ)
      let rankSlope : ℝ := (firstAvg - lastAvg) / 500
      let mlValues := recent.filterMap (fun e => e.monthly_listeners)
      let varianceRatio : ℝ :=
        if 1 < mlValues.length ∧ mlToday ≠ 0 then
          Real.sqrt (pvariance mlValues) / max (mlToday : ℝ) ((ML_FLOOR : ℕ) : ℝ)
        else 0
      clamp (0.5 * Real.tanh mlRatio + 0.3 * Real.tanh rankSlope
        - 0.2 * Real.tanh varianceRatio) 0 1

/-- `compute_streak(history)`: walk `reversed(history)`, breaking at the
first entry whose rank is absent or over the limit. -/
def streakGo : List ArtistHistoryEntry → Nat
  | [] => 0
  | e :: rest =>
    match e.rank with
    | none => 0
    | some r => if r > TOP_ARTIST_LIMIT then 0 else streakGo rest + 1

def computeStreak (history : List ArtistHistoryEntry) : Nat :=
  streakGo history.reverse

/-- `ArtistMetrics`, with the two float scores over ℝ. -/
structure ArtistMetrics where
  delta_rank : Option Int
  growth_1 : Int
  growth_7 : Int
  growth_30 : Int
  freshness_score : ℝ
  momentum_score : ℝ
  streak_days : Nat

/-- `ArtistDataStore._compute_metrics(state)`: pure in `state.history`. -/
noncomputable def computeMetrics (history : List ArtistHistoryEntry) :
    ArtistMetrics :=
  match history.getLast? with
  | none =>
    { delta_rank := none, growth_1 := 0, growth_7 := 0, growth_30 := 0
      freshness_score := 0, momentum_score := 0, streak_days := 0 }
  | some latest =>
    let prev : Option ArtistHistoryEntry :=
      if 1 < history.length then history[history.length - 2]? else none
    let deltaRank : Option Int :=
      match latest.rank, prev with
      | some lr, some p =>
        match p.rank with
        | some pr => some (pr - lr)
        | none => none
      | _, _ => none
    { delta_rank := deltaRank
      growth_1 := growth history 1
      growth_7 := growth history 7
      growth_30 := growth history 30
      freshness_score := freshnessScore history
      momentum_score := momentumScore history
      streak_days := computeStreak history }

-- ## Same-day idempotence of `update_state` (C1) and supporting facts

theorem todaysEntry_concat (today : Nat) (l : List ArtistHistoryEntry)
    (e : ArtistHistoryEntry) (hd : e.day = today) :
    todaysEntry today (l ++ [e]) = some e := by
  unfold todaysEntry
  rw [List.getLast?_concat]
  simp [hd]

theorem inTopList_iff (r : Option Int) :
    inTopList r = true ↔ ∃ v, r = some v ∧ v ≠ 0 ∧ v ≤ TOP_ARTIST_LIMIT := by
  cases r with
  | none => simp [inTopList]
  | some v =>
    by_cases h0 : v = 0
    · simp [inTopList, h0]
    · simp [inTopList, h0]

theorem bestRankUpdate_idem (wr b : Option Int) :
    bestRankUpdate wr (bestRankUpdate wr b) = bestRankUpdate wr b := by
  cases wr with
  | none => rfl
  | some w =>
    by_cases hw : w = 0
    · simp [bestRankUpdate, hw]
    · cases b with
      | none => simp [bestRankUpdate, hw]
      | some bb =>
        by_cases hlt : w < bb
        · simp [bestRankUpdate, hw, hlt]
        · simp [bestRankUpdate, hw, hlt]

theorem update_state_idem_aux (today : Nat) (s : ArtistState) (ov : ArtistOverview) :
    updateState today (updateState today s ov) ov = updateState today s ov := by
  by_cases hT : inTopList ov.world_rank = true
  · obtain ⟨wr, hwr, hw0, hwle⟩ := (inTopList_iff ov.world_rank).1 hT
    simp only [updateState, hT, if_true]
    rw [todaysEntry_concat today _ _ rfl]
    simp only [Option.isSome_some, if_true, List.dropLast_concat,
      Option.getD_some]
    have hrec : recordedTodayBefore (some
        { day := today, rank := ov.world_rank,
          monthly_listeners := ov.monthly_listeners,
          followers := ov.followers }) = true := by
      simp [recordedTodayBefore, hwr, hwle]
    rw [hrec]
    simp only [if_true]
    rw [bestRankUpdate_idem]
    congr 1
    omega
  · have hT' : inTopList ov.world_rank = false := by
      cases h : inTopList ov.world_rank
      · rfl
      · exact absurd h hT
    simp only [updateState, hT', Bool.false_eq_true, if_false]
    rw [todaysEntry_concat today _ _ rfl]
    simp only [Option.isSome_some, if_true, List.dropLast_concat]
    congr 1
    omega

/-- C1: same-day idempotence of the state update. Running
`update_state` a second time on the same day, on the state the first
call produced, yields an identical `ArtistState` (the today entry is
replaced, not duplicated), and the derived metrics — computed from that
state's history — are identical as well. -/
theorem update_state_same_day_idempotent (today : Nat) (s : ArtistState)
    (ov : ArtistOverview) :
    updateState today (updateState today s ov) ov = updateState today s ov ∧
    computeMetrics (updateState today (updateState today s ov) ov).history =
      computeMetrics (updateState today s ov).history :=
  ⟨update_state_idem_aux today s ov, by rw [update_state_idem_aux today s ov]⟩

/-- C3: bestRank is monotonically non-increasing: whenever a prior
bestRank exists, the bestRank after `update_state` exists and is
numerically at most the prior one. -/
theorem best_rank_monotone (today : Nat) (s : ArtistState) (ov : ArtistOverview)
    (b : Int) (h : s.best_rank = some b) :
    ∃ b2, (updateState today s ov).best_rank = some b2 ∧ b2 ≤ b := by
  by_cases hT : inTopList ov.world_rank = true
  · simp only [updateState, hT, if_true]
    rw [h]
    cases hw : ov.world_rank with
    | none => exact ⟨b, rfl, le_rfl⟩
    | some w =>
      by_cases hw0 : w = 0
      · exact ⟨b, by simp [bestRankUpdate, hw0], le_rfl⟩
      · by_cases hlt : w < b
        · exact ⟨w, by simp [bestRankUpdate, hw0, hlt], le_of_lt hlt⟩
        · exact ⟨b, by simp [bestRankUpdate, hw0, hlt], le_rfl⟩
  · have hT' : inTopList ov.world_rank = false := by
      cases h2 : inTopList ov.world_rank
      · rfl
      · exact absurd h2 hT
    simp only [updateState, hT', Bool.false_eq_true, if_false]
    exact ⟨b, h, le_rfl⟩

/-- Witness for C3: prior best rank 5, fresh observation at rank 3. -/
theorem best_rank_monotone_witness :
    ∃ b2, (updateState 1
        { history := [], first_seen := 0, first_top500 := none,
          last_top500 := none, times_entered_top500 := 0,
          days_in_top500 := 0, best_rank := some 5 }
        { artist_id := "a", name := "a", monthly_listeners := none,
          followers := none, world_rank := some 3 }).best_rank = some b2 ∧
      b2 ≤ 5 :=
  best_rank_monotone 1
    { history := [], first_seen := 0, first_top500 := none,
      last_top500 := none, times_entered_top500 := 0,
      days_in_top500 := 0, best_rank := some 5 }
    { artist_id := "a", name := "a", monthly_listeners := none,
      followers := none, world_rank := some 3 } 5 rfl

-- ## Fresh-entry detection (C9)

/-- Modelled from the spec claim: "was in the top list on the previous
calendar day (yesterday)" — some recorded history entry dated exactly
`d` with a qualifying rank. -/
def inTopOnDay (history : List ArtistHistoryEntry) (d : Nat) : Bool :=
  history.any (fun e2 => e2.day = d && inTopList e2.rank)

/-- What `update_state` actually compares against: after removing a
same-day last entry, the rank of the most recent remaining entry,
whatever calendar day it carries. -/
def previousRecordedRank (today : Nat) (history : List ArtistHistoryEntry) :
    Option Int :=
  let history1 :=
    if (todaysEntry today history).isSome then history.dropLast else history
  match history1.getLast? with
  | some e => e.rank
  | none => none

/-- C9 counterexample: with a single prior entry three days old at rank
10, a rank-5 observation today does not increment
`times_entered_top500` (the code treats the stale entry as "previous"),
while the claim's yesterday-membership test demands an increment. -/
theorem times_entered_yesterday_counterexample :
    ¬ ∀ (today : Nat) (s : ArtistState) (ov : ArtistOverview),
        (updateState today s ov).times_entered_top500 =
          (if inTopList ov.world_rank &&
              !(recordedTodayBefore (todaysEntry today s.history)) &&
              !(inTopOnDay s.history (today - 1))
           then s.times_entered_top500 + 1 else s.times_entered_top500) := by
  intro hcl
  exact absurd
    (hcl 10
      { history := [{ day := 7, rank := some 10,
                      monthly_listeners := some 100, followers := none }],
        first_seen := 7, first_top500 := some 7, last_top500 := some 7,
        times_entered_top500 := 1, days_in_top500 := 1, best_rank := some 10 }
      { artist_id := "a", name := "a", monthly_listeners := some 200,
        followers := none, world_rank := some 5 })
    (by decide)

/-- C9 amended: `update_state` increments `times_entered_top500` exactly
when the entity is in the top list today, today was not already recorded
in-list, and the most recent prior recorded entry (whatever its calendar
day) was not in the top list. -/
theorem times_entered_amended (today : Nat) (s : ArtistState) (ov : ArtistOverview) :
    (updateState today s ov).times_entered_top500 =
      (if inTopList ov.world_rank = true ∧
          recordedTodayBefore (todaysEntry today s.history) = false ∧
          inTopList (previousRecordedRank today s.history) = false
       then s.times_entered_top500 + 1 else s.times_entered_top500) := by
  by_cases hT : inTopList ov.world_rank = true
  · simp only [updateState, hT, if_true]
    by_cases hrec : recordedTodayBefore (todaysEntry today s.history) = true
    · rw [if_pos hrec]
      rw [if_neg (by simp [hrec])]
    · have hrec' : recordedTodayBefore (todaysEntry today s.history) = false := by
        cases h2 : recordedTodayBefore (todaysEntry today s.history)
        · rfl
        · exact absurd h2 hrec
      rw [if_neg (by simp [hrec'])]
      by_cases hprev : inTopList (previousRecordedRank today s.history) = true
      · rw [if_pos (by
          unfold previousRecordedRank at hprev
          simpa using hprev)]
        rw [if_neg (by simp [hprev])]
      · have hprev' : inTopList (previousRecordedRank today s.history) = false := by
          cases h2 : inTopList (previousRecordedRank today s.history)
          · rfl
          · exact absurd h2 hprev
        rw [if_neg (by
          unfold previousRecordedRank at hprev'
          simp only at hprev'
          simp [hprev'])]
        rw [if_pos (by simp [hT, hrec', hprev'])]
  · have hT' : inTopList ov.world_rank = false := by
      cases h2 : inTopList ov.world_rank
      · rfl
      · exact absurd h2 hT
    simp only [updateState, hT', Bool.false_eq_true, if_false]
    rw [if_neg (by simp [hT'])]

-- ## World-rank normalization (C10)

/-- The `worldRank` normalization in `parse_artist_payload`
(fetch_artists.py lines 1648-1652), for integer-valued stats nodes: an
integer ≤ 0 becomes `None`; an absent node stays absent. -/
def normalizeWorldRank (raw : Option Int) : Option Int :=
  match raw with
  | some n => if n ≤ 0 then none else some n
  | none => none

/-- C10: a non-positive integer worldRank is normalized to absent, so an
overview built from it records a rank-less history entry today, never
counts as top-list membership, and leaves bestRank and both counters
unchanged. -/
theorem world_rank_nonpos_normalized (n : Int) (today : Nat) (s : ArtistState)
    (ov : ArtistOverview) (hn : n ≤ 0)
    (hov : ov.world_rank = normalizeWorldRank (some n)) :
    normalizeWorldRank (some n) = none ∧
    inTopList ov.world_rank = false ∧
    (updateState today s ov).history.getLast? =
      some { day := today, rank := none,
             monthly_listeners := ov.monthly_listeners,
             followers := ov.followers } ∧
    (updateState today s ov).best_rank = s.best_rank ∧
    (updateState today s ov).days_in_top500 = s.days_in_top500 ∧
    (updateState today s ov).times_entered_top500 = s.times_entered_top500 := by
  have hnone : normalizeWorldRank (some n) = none := by
    simp [normalizeWorldRank, hn]
  have hov' : ov.world_rank = none := by rw [hov, hnone]
  have hT' : inTopList ov.world_rank = false := by rw [hov']; rfl
  refine ⟨hnone, hT', ?_, ?_, ?_, ?_⟩ <;>
    simp only [updateState, hT', Bool.false_eq_true, if_false]
  rw [List.getLast?_concat, hov']

/-- Witness for C10 at n = −1 on an empty prior state. -/
theorem world_rank_nonpos_normalized_witness :
    normalizeWorldRank (some (-1)) = none ∧
    inTopList ({ artist_id := "a", name := "a", monthly_listeners := some 7,
                 followers := none, world_rank := none } : ArtistOverview).world_rank = false ∧
    (updateState 3
        { history := [], first_seen := 0, first_top500 := none,
          last_top500 := none, times_entered_top500 := 0,
          days_in_top500 := 0, best_rank := none }
        { artist_id := "a", name := "a", monthly_listeners := some 7,
          followers := none, world_rank := none }).history.getLast? =
      some { day := 3, rank := none, monthly_listeners := some 7,
             followers := none } ∧
    (updateState 3
        { history := [], first_seen := 0, first_top500 := none,
          last_top500 := none, times_entered_top500 := 0,
          days_in_top500 := 0, best_rank := none }
        { artist_id := "a", name := "a", monthly_listeners := some 7,
          followers := none, world_rank := none }).best_rank =
      ({ history := [], first_seen := 0, first_top500 := none,
         last_top500 := none, times_entered_top500 := 0,
         days_in_top500 := 0, best_rank := none } : ArtistState).best_rank ∧
    (updateState 3
        { history := [], first_seen := 0, first_top500 := none,
          last_top500 := none, times_entered_top500 := 0,
          days_in_top500 := 0, best_rank := none }
        { artist_id := "a", name := "a", monthly_listeners := some 7,
          followers := none, world_rank := none }).days_in_top500 =
      ({ history := [], first_seen := 0, first_top500 := none,
         last_top500 := none, times_entered_top500 := 0,
         days_in_top500 := 0, best_rank := none } : ArtistState).days_in_top500 ∧
    (updateState 3
        { history := [], first_seen := 0, first_top500 := none,
          last_top500 := none, times_entered_top500 := 0,
          days_in_top500 := 0, best_rank := none }
        { artist_id := "a", name := "a", monthly_listeners := some 7,
          followers := none, world_rank := none }).times_entered_top500 =
      ({ history := [], first_seen := 0, first_top500 := none,
         last_top500 := none, times_entered_top500 := 0,
         days_in_top500 := 0, best_rank := none } : ArtistState).times_entered_top500 :=
  world_rank_nonpos_normalized (-1) 3
    { history := [], first_seen := 0, first_top500 := none,
      last_top500 := none, times_entered_top500 := 0,
      days_in_top500 := 0, best_rank := none }
    { artist_id := "a", name := "a", monthly_listeners := some 7,
      followers := none, world_rank := none }
    (by norm_num) rfl

-- ## Streak (C8)

/-- The claim's qualifying test: rank present and at most the configured
limit. -/
def streakQualifies (e : ArtistHistoryEntry) : Bool :=
  match e.rank with
  | some r => decide (r ≤ TOP_ARTIST_LIMIT)
  | none => false

theorem streakGo_eq_takeWhile (l : List ArtistHistoryEntry) :
    streakGo l = (l.takeWhile streakQualifies).length := by
  induction l with
  | nil => rfl
  | cons e rest ih =>
    cases he : e.rank with
    | none => simp [streakGo, streakQualifies, List.takeWhile_cons, he]
    | some r =>
      by_cases hr : r > TOP_ARTIST_LIMIT
      · have : streakQualifies e = false := by
          simp [streakQualifies, he]
          omega
        simp [streakGo, he, hr, List.takeWhile_cons, this]
      · have : streakQualifies e = true := by
          simp [streakQualifies, he]
          omega
        simp [streakGo, he, hr, List.takeWhile_cons, this, ih]

/-- C8: `compute_streak` counts the trailing consecutive entries
(newest-first) whose rank is present and at most the configured limit,
stopping at the first failing entry: it equals the length of the
longest qualifying prefix of the reversed history. -/
theorem streak_days_trailing_qualifying (history : List ArtistHistoryEntry) :
    computeStreak history =
      (history.reverse.takeWhile streakQualifies).length := by
  rw [computeStreak, streakGo_eq_takeWhile]

-- ## Geo store (fetch_artists.py `GeoStore.ensure_city`)

/-- A `geo-cities.json` row. Coordinates are rationals standing for the
source's floats (they are stored and compared to `None`, never computed
with). -/
structure CityRecord where
  cid : Nat
  name : String
  cc : String
  lat : Option ℚ
  lon : Option ℚ
deriving DecidableEq

/-- The mutable state of a `GeoStore`: the insertion-ordered
`_cities` dict keyed by the exact `(name, country_code)` pair,
`_next_city_id`, and `_dirty_cities`. -/
structure GeoState where
  cities : List ((String × String) × CityRecord)
  nextCityId : Nat
  dirty : Bool
deriving DecidableEq

/-- A store freshly constructed with no persisted `geo-cities.json`:
`_load_existing` finds nothing, so the dict is empty and `_next_city_id`
is 1000. -/
def freshGeoState : GeoState :=
  { cities := [], nextCityId := 1000, dirty := false }

def assocFind (cities : List ((String × String) × CityRecord))
    (key : String × String) : Option CityRecord :=
  match cities.find? (fun p => p.1 = key) with
  | some p => some p.2
  | none => none

def assocReplace (cities : List ((String × String) × CityRecord))
    (key : String × String) (record : CityRecord) :
    List ((String × String) × CityRecord) :=
  cities.map (fun p => if p.1 = key then (key, record) else p)

/-- `GeoStore.ensure_city` (fetch_artists.py lines 794-837).
`lookupCoords` abstracts `_lookup_city_coords` — the cascading
normalized-variant catalog lookup — which only ever supplies fallback
coordinates and never takes part in identity: the record dict is read
and written with the exact `(name, country_code)` key. Returns the
assigned city id and the updated store. -/
def ensureCity (lookupCoords : String → String → Option (ℚ × ℚ))
    (st : GeoState) (name countryCode : Option String)
    (latitude longitude : Option ℚ) : Option Nat × GeoState :=
  match name, countryCode with
  | some n, some cc =>
    if n = "" ∨ cc = "" then (none, st)
    else
      let coords := lookupCoords n cc
      let latValue : Option ℚ :=
        match latitude with
        | some v => some v
        | none => match coords with | some c => some c.1 | none => none
      let lonValue : Option ℚ :=
        match longitude with
        | some v => some v
        | none => match coords with | some c => some c.2 | none => none
      let key := (n, cc)
      match assocFind st.cities key with
      | none =>
        let record : CityRecord :=
          { cid := st.nextCityId, name := n, cc := cc,
            lat := latValue, lon := lonValue }
        (some st.nextCityId,
         { cities := st.cities ++ [(key, record)],
           nextCityId := st.nextCityId + 1, dirty := true })
      | some record =>
        let lat2 : Option ℚ :=
          match record.lat, latValue with
          | none, some v => some v
          | _, _ => record.lat
        let lon2 : Option ℚ :=
          match record.lon, lonValue with
          | none, some v => some v
          | _, _ => record.lon
        let updated : Bool :=
          (record.lat.isNone && latValue.isSome) ||
            (record.lon.isNone && lonValue.isSome)
        let record2 : CityRecord :=
          { record with lat := lat2, lon := lon2 }
        (some record.cid,
         { st with cities := assocReplace st.cities key record2,
                   dirty := st.dirty || updated })
  | _, _ => (none, st)

/-- C7 counterexample: on a fresh store (empty catalog), presenting
("São Paulo", "BR") and then ("Sao Paulo", "br") to the geo store yields
the DIFFERENT city ids 1000 and 1001 — not the same id the claim
asserts. -/
theorem sao_paulo_distinct_ids_counterexample :
    (ensureCity (fun _ _ => none) freshGeoState
        (some "São Paulo") (some "BR") none none).1 = some 1000 ∧
    (ensureCity (fun _ _ => none)
        (ensureCity (fun _ _ => none) freshGeoState
          (some "São Paulo") (some "BR") none none).2
        (some "Sao Paulo") (some "br") none none).1 = some 1001 ∧
    some (1000 : Nat) ≠ some 1001 := by
  refine ⟨by decide, by decide, by decide⟩

/-- C7 amended: the cascading normalization variants feed only the
coordinate lookup; city-id assignment keys on the exact
(name, countryCode) pair, so "São Paulo"/"BR" and "Sao Paulo"/"br" are
distinct keys and receive the distinct sequential ids 1000 and 1001 on
a fresh store — for every catalog lookup function and any supplied
coordinates. -/
theorem sao_paulo_amended (lookupCoords : String → String → Option (ℚ × ℚ))
    (lat1 lon1 lat2 lon2 : Option ℚ) :
    (ensureCity lookupCoords freshGeoState
        (some "São Paulo") (some "BR") lat1 lon1).1 = some 1000 ∧
    (ensureCity lookupCoords
        (ensureCity lookupCoords freshGeoState
          (some "São Paulo") (some "BR") lat1 lon1).2
        (some "Sao Paulo") (some "br") lat2 lon2).1 = some 1001 := by
  constructor
  · simp [ensureCity, freshGeoState, assocFind]
  · simp [ensureCity, freshGeoState, assocFind, List.find?]

-- ## Per-entity fetch retry loops (C6): `fetch_artist_overview` and
-- `fetch_track_metadata`

/-- The outcome the environment deals to one attempt of a fetch loop:
a 2xx response with parseable body, an HTTP error status raised by
`raise_for_status`, a transport error (timeout / `ClientError`), or a
body-parsing failure (`KeyError` / `ValueError` / JSON decode). -/
inductive AttemptOutcome where
  | success
  | httpError (status : Nat)
  | transportError
  | parseError
deriving DecidableEq

/-- The `for attempt in range(1, MAX_RETRIES + 1)` loop of
`fetch_artist_overview` (lines 1600-1628), driven by an outcome script:
success returns the parsed overview; a 401/403 invalidates the token
and falls through to the backoff; ANY other HTTP error is logged and
ALSO falls through to the backoff (there is no early return on that
branch); transport errors fall through; parse errors return None
immediately; an exhausted loop returns None. The result is
(overview?, attempts used, token invalidations). -/
def overviewLoop (env : Nat → AttemptOutcome) :
    Nat → Nat → Nat → Option Unit × Nat × Nat
  | 0, _, inv => (none, MAX_RETRIES, inv)
  | remaining + 1, attempt, inv =>
    match env attempt with
    | .success => (some (), attempt, inv)
    | .httpError s =>
      if s = 401 ∨ s = 403 then overviewLoop env remaining (attempt + 1) (inv + 1)
      else overviewLoop env remaining (attempt + 1) inv
    | .transportError => overviewLoop env remaining (attempt + 1) inv
    | .parseError => (none, attempt, inv)

def fetchArtistOverviewSim (env : Nat → AttemptOutcome) :
    Option Unit × Nat × Nat :=
  overviewLoop env MAX_RETRIES 1 0

/-- The retry loop of `fetch_track_metadata` (lines 1426-1464): same as
the overview loop except that a non-auth HTTP error returns None
immediately. -/
def metadataLoop (env : Nat → AttemptOutcome) :
    Nat → Nat → Nat → Option Unit × Nat × Nat
  | 0, _, inv => (none, MAX_RETRIES, inv)
  | remaining + 1, attempt, inv =>
    match env attempt with
    | .success => (some (), attempt, inv)
    | .httpError s =>
      if s = 401 ∨ s = 403 then metadataLoop env remaining (attempt + 1) (inv + 1)
      else (none, attempt, inv)
    | .transportError => metadataLoop env remaining (attempt + 1) inv
    | .parseError => (none, attempt, inv)

def fetchTrackMetadataSim (env : Nat → AttemptOutcome) :
    Option Unit × Nat × Nat :=
  metadataLoop env MAX_RETRIES 1 0

/-- A script dealing a 404 on the first attempt and success afterwards. -/
def env404ThenSuccess : Nat → AttemptOutcome :=
  fun i => if i = 1 then .httpError 404 else .success

/-- C6 counterexample: a 404 (non-auth 4xx) on the first attempt does
NOT make `fetch_artist_overview` abandon the entity — with the next
attempt succeeding, the simulated loop returns success on attempt 2,
refuting "returns failure without spending any of the remaining retry
attempts". -/
theorem non_auth_4xx_overview_counterexample :
    ¬ ∀ (env : Nat → AttemptOutcome) (s : Nat),
        ¬(s = 401 ∨ s = 403) → 400 ≤ s → s < 500 →
        env 1 = .httpError s →
        (fetchArtistOverviewSim env).1 = none ∧
        (fetchArtistOverviewSim env).2.1 = 1 := by
  intro hcl
  have h := hcl env404ThenSuccess 404 (by decide) (by decide) (by decide) rfl
  have heval : fetchArtistOverviewSim env404ThenSuccess = (some (), 2, 0) := by
    decide
  rw [heval] at h
  simp at h

/-- C6 amended: on a non-auth HTTP error status (any 4xx other than
401/403 — and in fact any 5xx as well), `fetch_track_metadata` abandons
the entity immediately, returning failure after exactly the one attempt
with no token invalidation; `fetch_artist_overview` instead treats it
like a transport error, falling through to the backoff and spending a
further attempt of its remaining budget. -/
theorem non_auth_4xx_amended (env : Nat → AttemptOutcome) (s : Nat)
    (h4 : ¬(s = 401 ∨ s = 403)) (henv : env 1 = .httpError s) :
    fetchTrackMetadataSim env = (none, 1, 0) ∧
    fetchArtistOverviewSim env = overviewLoop env (MAX_RETRIES - 1) 2 0 := by
  constructor
  · show metadataLoop env MAX_RETRIES 1 0 = (none, 1, 0)
    rw [show MAX_RETRIES = 4 + 1 from rfl]
    rw [metadataLoop, henv]
    simp only [if_neg h4]
  · show overviewLoop env MAX_RETRIES 1 0 = overviewLoop env (MAX_RETRIES - 1) 2 0
    rw [show MAX_RETRIES = 4 + 1 from rfl]
    rw [overviewLoop, henv]
    simp only [if_neg h4]

/-- Witness for C6 (amended) with the 404-then-success script. -/
theorem non_auth_4xx_amended_witness :
    fetchTrackMetadataSim env404ThenSuccess = (none, 1, 0) ∧
    fetchArtistOverviewSim env404ThenSuccess =
      overviewLoop env404ThenSuccess (MAX_RETRIES - 1) 2 0 :=
  non_auth_4xx_amended env404ThenSuccess 404 (by decide) rfl

-- ## Freshness score (C5): tanh facts and the spec's formula

theorem tanh_alt (x : ℝ) : Real.tanh x = 1 - 2 / (Real.exp (2 * x) + 1) := by
  have ha : Real.exp x > 0 := Real.exp_pos x
  have hb : Real.exp (-x) > 0 := Real.exp_pos (-x)
  have hc : Real.exp (2 * x) = Real.exp x * Real.exp x := by
    rw [two_mul, Real.exp_add]
  have hab : Real.exp x * Real.exp (-x) = 1 := by
    rw [← Real.exp_add]
    simp
  rw [Real.tanh_eq_sinh_div_cosh, Real.sinh_eq, Real.cosh_eq, hc]
  have hden : Real.exp x + Real.exp (-x) > 0 := by linarith
  have hden2 : Real.exp x * Real.exp x + 1 > 0 := by positivity
  field_simp
  nlinarith [hab]

theorem tanh_lt_tanh {x y : ℝ} (h : x < y) : Real.tanh x < Real.tanh y := by
  rw [tanh_alt, tanh_alt]
  have h1 : Real.exp (2 * x) < Real.exp (2 * y) := Real.exp_lt_exp.2 (by linarith)
  have p1 : 0 < Real.exp (2 * x) + 1 := by positivity
  have key : 2 / (Real.exp (2 * y) + 1) < 2 / (Real.exp (2 * x) + 1) :=
    div_lt_div_of_pos_left (by norm_num) p1 (by linarith)
  linarith

theorem tanh_pos {x : ℝ} (h : 0 < x) : 0 < Real.tanh x := by
  have h2 := tanh_lt_tanh h
  rwa [Real.tanh_zero] at h2

theorem tanh_lt_one (x : ℝ) : Real.tanh x < 1 := by
  rw [tanh_alt]
  have : 0 < 2 / (Real.exp (2 * x) + 1) := by positivity
  linarith

theorem clamp01_nonneg (v : ℝ) : 0 ≤ clamp v 0 1 := le_max_left 0 _

theorem clamp01_le_one (v : ℝ) : clamp v 0 1 ≤ 1 :=
  max_le (by norm_num) (min_le_right v 1)

theorem clamp01_of_mem {v : ℝ} (h0 : 0 ≤ v) (h1 : v ≤ 1) : clamp v 0 1 = v := by
  rw [clamp, min_eq_left h1, max_eq_right h0]

/-- Modelled from the spec claim (C5): clamp01 of
0.6·tanh(growth7 / max(mlToday, floor)) plus
0.4·tanh((rank seven entries back − rankToday) / limit), where the
divisor is the CONFIGURED TOP-LIST LIMIT; a missing seven-back rank
contributes exactly 0 to the second term. -/
noncomputable def freshnessScoreClaim (history : List ArtistHistoryEntry) : ℝ :=
  match history.getLast? with
  | none => 0
  | some latest =>
    let mlToday : Int := latest.monthly_listeners.getD 0
    let term1 : ℝ :=
      0.6 * Real.tanh ((growth history 7 : ℝ) /
        max (mlToday : ℝ) ((ML_FLOOR : ℕ) : ℝ))
    let term2 : ℝ :=
      if 7 < history.length then
        match history[history.length - 8]? with
        | some e =>
          match e.rank, latest.rank with
          | some rw, some rt =>
            0.4 * Real.tanh (((rw - rt : Int) : ℝ) / ((TOP_ARTIST_LIMIT : Int) : ℝ))
          | _, _ => 0
        | none => 0
      else 0
    clamp (term1 + term2) 0 1

/-- The amended C5 formula: the rank-trend divisor is the constant 500
(not the configured limit 850), a missing today-rank is replaced by
600, and a zero or missing mlToday zeroes the growth ratio; the
rank-trend term reads the entry seven positions back in the recorded
history. -/
noncomputable def freshnessScoreAmended (history : List ArtistHistoryEntry) : ℝ :=
  match history.getLast? with
  | none => 0
  | some latest =>
    let ratio1 : ℝ :=
      match latest.monthly_listeners with
      | some m =>
        if m = 0 then 0
        else (growth history 7 : ℝ) / max (m : ℝ) ((ML_FLOOR : ℕ) : ℝ)
      | none => 0
    let term2 : ℝ :=
      if 7 < history.length then
        match history[history.length - 8]? with
        | some e =>
          match e.rank with
          | some rw =>
            Real.tanh (((rw - latest.rank.getD 600 : Int) : ℝ) / 500)
          | none => 0
        | none => 0
      else 0
    clamp (0.6 * Real.tanh ratio1 + 0.4 * term2) 0 1

/-- C5 amended: the source's `_freshness_score` computes exactly the
amended formula, and the result always lies in [0, 1]. -/
theorem freshness_score_amended (history : List ArtistHistoryEntry) :
    freshnessScore history = freshnessScoreAmended history ∧
    0 ≤ freshnessScore history ∧ freshnessScore history ≤ 1 := by
  refine ⟨?_, ?_, ?_⟩
  · rw [freshnessScore, freshnessScoreAmended]
    cases hlast : history.getLast? with
    | none => rfl
    | some latest =>
      simp only
      by_cases h7 : 7 < history.length
      · simp only [h7, if_true]
        cases he : history[history.length - 8]? with
        | none =>
          cases hml : latest.monthly_listeners <;> simp [Real.tanh_zero]
        | some e =>
          cases her : e.rank with
          | none =>
            cases hml : latest.monthly_listeners <;> simp [Real.tanh_zero, her]
          | some rw2 =>
            have h600 : (500 : Int) + 100 = 600 := by norm_num
            cases hml : latest.monthly_listeners <;> simp [h600, her]
      · simp only [h7, if_false]
        cases hml : latest.monthly_listeners <;> simp [Real.tanh_zero]
  · rw [freshnessScore]
    cases history.getLast? with
    | none => norm_num
    | some latest => exact clamp01_nonneg _
  · rw [freshnessScore]
    cases history.getLast? with
    | none => norm_num
    | some latest => exact clamp01_le_one _

/-- An eight-entry history with flat monthly listeners, rank 850 seven
entries back and rank 350 today: the two formulas disagree because the
source divides the rank delta by 500 while the claim divides by the
configured limit 850. -/
def exHist5 : List ArtistHistoryEntry :=
  [{ day := 1, rank := some 850, monthly_listeners := some 2000000, followers := none },
   { day := 2, rank := some 400, monthly_listeners := some 2000000, followers := none },
   { day := 3, rank := some 400, monthly_listeners := some 2000000, followers := none },
   { day := 4, rank := some 400, monthly_listeners := some 2000000, followers := none },
   { day := 5, rank := some 400, monthly_listeners := some 2000000, followers := none },
   { day := 6, rank := some 400, monthly_listeners := some 2000000, followers := none },
   { day := 7, rank := some 400, monthly_listeners := some 2000000, followers := none },
   { day := 8, rank := some 350, monthly_listeners := some 2000000, followers := none }]

/-- C5 counterexample: on `exHist5` the source's freshness score is
0.4·tanh(500/500) while the claim's formula gives 0.4·tanh(500/850);
tanh is strictly monotone, so they differ. -/
theorem freshness_divisor_counterexample :
    freshnessScore exHist5 ≠ freshnessScoreClaim exHist5 := by
  have hlast : exHist5.getLast? =
      some { day := 8, rank := some 350, monthly_listeners := some 2000000,
             followers := none } := rfl
  have hlen : exHist5.length = 8 := rfl
  have hget : exHist5[(0 : Nat)]? =
      some { day := 1, rank := some 850, monthly_listeners := some 2000000,
             followers := none } := rfl
  have hg : growth exHist5 7 = 0 := by decide
  have hcode : freshnessScore exHist5 = clamp (0.4 * Real.tanh 1) 0 1 := by
    rw [freshnessScore, hlast]
    norm_num [hlen, hg, hget, Real.tanh_zero, ML_FLOOR]
  have hclaim : freshnessScoreClaim exHist5 =
      clamp (0.4 * Real.tanh (10 / 17)) 0 1 := by
    rw [freshnessScoreClaim, hlast]
    norm_num [hlen, hg, hget, Real.tanh_zero, ML_FLOOR, TOP_ARTIST_LIMIT]
  have ht1 : (0 : ℝ) < Real.tanh 1 := tanh_pos (by norm_num)
  have ht2 : Real.tanh 1 < 1 := tanh_lt_one 1
  have ht3 : (0 : ℝ) < Real.tanh (10 / 17) := tanh_pos (by norm_num)
  have ht4 : Real.tanh (10 / 17) < Real.tanh 1 := tanh_lt_tanh (by norm_num)
  rw [hcode, hclaim,
    clamp01_of_mem (by nlinarith) (by nlinarith),
    clamp01_of_mem (by nlinarith) (by nlinarith)]
  intro heq
  nlinarith
